import Mathlib

/-!
# sysexits: exit-code registry and the `Exit` dispatcher

A shallow embedding of `errors.go`.

* Go's `int` is embedded as `Int`. The program performs no arithmetic on
  status codes, so no wrap-around is involved.
* The execution of a Go function body goes one of four ways: it returns to
  its caller, it panics, the process is terminated by `os.Exit`, or it runs
  forever. `Outcome` records which, and `Outcome.andThen` is sequencing: what
  follows a statement (or consumes the value of an argument expression) runs
  only when that statement returned.
* A value of the interface type `error` is nil or holds a dynamic value. The
  dynamic value is either a `statusCode` of this package or a value of a type
  declared elsewhere; of the latter the embedding keeps the message, the
  outcome of the call `StatusCode()` when the type has that method (the call
  is arbitrary code: it may return an int, panic, as a value-receiver method
  called through a nil pointer does, terminate the process itself, or never
  come back), and the error it wraps (nil when it wraps none).
-/

namespace sysexits

/-! ## Data model -/

/-- The struct `statusCode` (errors.go, lines 7-10). -/
structure statusCode where
  code : Int
  msg : String
deriving DecidableEq, Repr

/-- The method `func (s statusCode) Error() string`. -/
def statusCode.Error (s : statusCode) : String :=
  s.msg

/-- The method `func (s statusCode) StatusCode() int`. -/
def statusCode.StatusCode (s : statusCode) : Int :=
  s.code

/-- A call of a method with a value receiver, seen from the caller: Go passes
a copy of the receiver, so the caller keeps the value it had. The pair is the
caller's value after the call and the value the method returned. -/
def callByValue {α β : Type} (method : α → β) (recv : α) : α × β :=
  (recv, method recv)

/-- How the execution of a function body goes. -/
inductive Outcome (α : Type) where
  | returned (a : α)
  | exited (status : Int)
  | panicked
  | diverged
deriving DecidableEq, Repr

/-- Statement sequencing: the continuation runs only after a normal return. -/
def Outcome.andThen {α β : Type} (first : Outcome α) (next : α → Outcome β) : Outcome β :=
  match first with
  | .returned a => next a
  | .exited status => .exited status
  | .panicked => .panicked
  | .diverged => .diverged

/-- The library call `os.Exit(code)`: the process terminates with `code`;
the call does not return. The status recorded is the argument handed to
`os.Exit`; how the operating system reports it to the parent process lies
outside the program. -/
def os.Exit (code : Int) : Outcome Unit :=
  .exited code

/-- A value of the builtin interface type `error`. -/
inductive error where
  | nil
  | ofStatusCode (s : statusCode)
  | foreign (msg : String) (statusCode? : Option (Outcome Int)) (inner : error)
deriving DecidableEq, Repr

/-- A non-nil value of the interface type `StatusCoder` (errors.go, lines
85-89): the dynamic value behind it has a `StatusCode() int` method. -/
inductive StatusCoder where
  | ofStatusCode (s : statusCode)
  | foreign (call : Outcome Int)
deriving DecidableEq, Repr

/-- Dynamic dispatch of `v.StatusCode()` on an interface value: the method of
`statusCode` returns its field; the method of a foreign type does what that
type makes it do. -/
def StatusCoder.StatusCode : StatusCoder → Outcome Int
  | .ofStatusCode s => .returned s.StatusCode
  | .foreign call => call

/-- Dynamic dispatch of `err.Error()`; calling a method on a nil interface
value is a run-time panic. -/
def error.Error : error → Outcome String
  | .nil => .panicked
  | .ofStatusCode s => .returned s.Error
  | .foreign msg _ _ => .returned msg

/-- The error a value wraps (what its `Unwrap` method would return); nil for
a value that wraps nothing. -/
def error.Unwrap : error → error
  | .nil => .nil
  | .ofStatusCode _ => .nil
  | .foreign _ _ inner => inner

/-- The two-result type assertion `v, ok := err.(StatusCoder)`: `some v` when
`ok` is true, `none` when it is false. It is false for a nil interface value
and for a dynamic type without the method. -/
def error.assertStatusCoder : error → Option StatusCoder
  | .nil => none
  | .ofStatusCode s => some (.ofStatusCode s)
  | .foreign _ (some call) _ => some (.foreign call)
  | .foreign _ none _ => none

/-! ## The predefined values (errors.go, lines 20-81) -/

def UsageError : error := .ofStatusCode { code := 64, msg := "command was used incorrectly" }
def DataError : error := .ofStatusCode { code := 65, msg := "input data was incorrect" }
def NoInputError : error :=
  .ofStatusCode { code := 66, msg := "input file does not exist or is not readable" }
def NoUserError : error := .ofStatusCode { code := 67, msg := "specified user does not exist" }
def NoHostError : error := .ofStatusCode { code := 68, msg := "specified host does not exist" }
def UnavailableError : error := .ofStatusCode { code := 69, msg := "service is unavailable" }
def SoftwareError : error := .ofStatusCode { code := 70, msg := "internal software error" }
def OSError : error := .ofStatusCode { code := 71, msg := "operating system error" }
def OSFileError : error := .ofStatusCode { code := 72, msg := "system file error" }
def CantCreateError : error := .ofStatusCode { code := 73, msg := "output file cannot be created" }
def IOError : error := .ofStatusCode { code := 74, msg := "I/O error" }
def TempFailError : error := .ofStatusCode { code := 75, msg := "temporary failure" }
def ProtocolError : error := .ofStatusCode { code := 76, msg := "protocol error" }
def NoPermError : error := .ofStatusCode { code := 77, msg := "insufficient permission" }
def ConfigError : error :=
  .ofStatusCode { code := 78, msg := "unconfigured or misconfigured state" }

/-- The exit code a value declares: the type assertion against `StatusCoder`
followed by the `StatusCode()` call; `none` when the assertion fails or the
call does not return. -/
def error.declaredCode (err : error) : Option Int :=
  match err.assertStatusCoder with
  | some v =>
    match v.StatusCode with
    | .returned n => some n
    | _ => none
  | none => none

/-- Whether the `StatusCode()` call that `Exit` makes on `err` panics or
runs forever; false when the type assertion fails and no call is made. -/
def error.statusCodeCallFails (err : error) : Bool :=
  match err.assertStatusCoder with
  | some v =>
    match v.StatusCode with
    | .panicked => true
    | .diverged => true
    | _ => false
  | none => false

/-- The names of the fifteen package-level variables. -/
inductive Category where
  | UsageError
  | DataError
  | NoInputError
  | NoUserError
  | NoHostError
  | UnavailableError
  | SoftwareError
  | OSError
  | OSFileError
  | CantCreateError
  | IOError
  | TempFailError
  | ProtocolError
  | NoPermError
  | ConfigError
deriving DecidableEq, Repr

/-- The value each package-level variable is initialised with. -/
def Category.value : Category → error
  | .UsageError => sysexits.UsageError
  | .DataError => sysexits.DataError
  | .NoInputError => sysexits.NoInputError
  | .NoUserError => sysexits.NoUserError
  | .NoHostError => sysexits.NoHostError
  | .UnavailableError => sysexits.UnavailableError
  | .SoftwareError => sysexits.SoftwareError
  | .OSError => sysexits.OSError
  | .OSFileError => sysexits.OSFileError
  | .CantCreateError => sysexits.CantCreateError
  | .IOError => sysexits.IOError
  | .TempFailError => sysexits.TempFailError
  | .ProtocolError => sysexits.ProtocolError
  | .NoPermError => sysexits.NoPermError
  | .ConfigError => sysexits.ConfigError

/-- The table of section 4.1 of the specification, row by row: the code and
the message it gives for each name. -/
def specTable : Category → Int × String
  | .UsageError => (64, "command was used incorrectly")
  | .DataError => (65, "input data was incorrect")
  | .NoInputError => (66, "input file does not exist or is not readable")
  | .NoUserError => (67, "specified user does not exist")
  | .NoHostError => (68, "specified host does not exist")
  | .UnavailableError => (69, "service is unavailable")
  | .SoftwareError => (70, "internal software error")
  | .OSError => (71, "operating system error")
  | .OSFileError => (72, "system file error")
  | .CantCreateError => (73, "output file cannot be created")
  | .IOError => (74, "I/O error")
  | .TempFailError => (75, "temporary failure")
  | .ProtocolError => (76, "protocol error")
  | .NoPermError => (77, "insufficient permission")
  | .ConfigError => (78, "unconfigured or misconfigured state")

/-! ## The dispatcher (errors.go, lines 93-98) -/

/-- The function `Exit`: the `if` statement, then `os.Exit(1)`. Inside the
`if`, the argument `v.StatusCode()` is evaluated first and `os.Exit` is
entered with its value. -/
def Exit (err : error) : Outcome Unit :=
  Outcome.andThen
    (match err.assertStatusCoder with
      | some v => Outcome.andThen v.StatusCode os.Exit
      | none => .returned ())
    (fun _ => os.Exit 1)

/-! ## Helper lemmas -/

theorem Exit_of_assert_some (err : error) (v : StatusCoder)
    (h : err.assertStatusCoder = some v) :
    Exit err = Outcome.andThen (Outcome.andThen v.StatusCode os.Exit) (fun _ => os.Exit 1) := by
  simp [Exit, h]

theorem Exit_of_returned (err : error) (v : StatusCoder) (n : Int)
    (h : err.assertStatusCoder = some v) (hn : v.StatusCode = .returned n) :
    Exit err = .exited n := by
  simp [Exit_of_assert_some err v h, hn, os.Exit, Outcome.andThen]

theorem Exit_of_assert_none (err : error)
    (h : err.assertStatusCoder = none) : Exit err = .exited 1 := by
  simp [Exit, h, os.Exit, Outcome.andThen]

theorem Exit_ne_returned (err : error) (u : Unit) : Exit err ≠ .returned u := by
  cases h : err.assertStatusCoder with
  | none => simp [Exit_of_assert_none err h]
  | some v =>
    rw [Exit_of_assert_some err v h]
    cases v.StatusCode <;> simp [os.Exit, Outcome.andThen]

theorem Exit_exited_of_call_ok (err : error) (h : err.statusCodeCallFails = false) :
    ∃ status, Exit err = .exited status := by
  cases ha : err.assertStatusCoder with
  | none => exact ⟨1, Exit_of_assert_none err ha⟩
  | some v =>
    rw [Exit_of_assert_some err v ha]
    simp only [error.statusCodeCallFails, ha] at h
    cases hc : v.StatusCode with
    | returned n => exact ⟨n, by simp [os.Exit, Outcome.andThen]⟩
    | exited status => exact ⟨status, by simp [Outcome.andThen]⟩
    | panicked => simp [hc] at h
    | diverged => simp [hc] at h

/-! ## The registry -/

/-- C1: each of the fifteen predefined values declares the tabulated code
(queried through `StatusCode`) and returns the tabulated message (queried
through `Error`). -/
theorem C1_registry_codes_and_messages :
    (UsageError.declaredCode = some 64 ∧ UsageError.Error = .returned "command was used incorrectly") ∧
    (DataError.declaredCode = some 65 ∧ DataError.Error = .returned "input data was incorrect") ∧
    (NoInputError.declaredCode = some 66 ∧ NoInputError.Error = .returned "input file does not exist or is not readable") ∧
    (NoUserError.declaredCode = some 67 ∧ NoUserError.Error = .returned "specified user does not exist") ∧
    (NoHostError.declaredCode = some 68 ∧ NoHostError.Error = .returned "specified host does not exist") ∧
    (UnavailableError.declaredCode = some 69 ∧ UnavailableError.Error = .returned "service is unavailable") ∧
    (SoftwareError.declaredCode = some 70 ∧ SoftwareError.Error = .returned "internal software error") ∧
    (OSError.declaredCode = some 71 ∧ OSError.Error = .returned "operating system error") ∧
    (OSFileError.declaredCode = some 72 ∧ OSFileError.Error = .returned "system file error") ∧
    (CantCreateError.declaredCode = some 73 ∧ CantCreateError.Error = .returned "output file cannot be created") ∧
    (IOError.declaredCode = some 74 ∧ IOError.Error = .returned "I/O error") ∧
    (TempFailError.declaredCode = some 75 ∧ TempFailError.Error = .returned "temporary failure") ∧
    (ProtocolError.declaredCode = some 76 ∧ ProtocolError.Error = .returned "protocol error") ∧
    (NoPermError.declaredCode = some 77 ∧ NoPermError.Error = .returned "insufficient permission") ∧
    (ConfigError.declaredCode = some 78 ∧ ConfigError.Error = .returned "unconfigured or misconfigured state") :=
  ⟨⟨rfl, rfl⟩,
   ⟨rfl, rfl⟩,
   ⟨rfl, rfl⟩,
   ⟨rfl, rfl⟩,
   ⟨rfl, rfl⟩,
   ⟨rfl, rfl⟩,
   ⟨rfl, rfl⟩,
   ⟨rfl, rfl⟩,
   ⟨rfl, rfl⟩,
   ⟨rfl, rfl⟩,
   ⟨rfl, rfl⟩,
   ⟨rfl, rfl⟩,
   ⟨rfl, rfl⟩,
   ⟨rfl, rfl⟩,
   ⟨rfl, rfl⟩⟩

/-- C5: for every predefined category the declared code lies in the closed
range 64..78 and the message is a non-empty string. -/
theorem C5_code_in_range_message_nonempty (c : Category) :
    ∃ (n : Int) (m : String), c.value.declaredCode = some n ∧ c.value.Error = .returned m ∧
      64 ≤ n ∧ n ≤ 78 ∧ m ≠ "" ∧ 0 < m.length := by
  cases c <;> exact ⟨_, _, rfl, rfl, by decide, by decide, by decide, by decide⟩

/-- C6: the map from the fifteen category names to the codes their values
declare is injective: two distinct categories never share a code. -/
theorem C6_codes_injective :
    Function.Injective (fun c : Category => c.value.declaredCode) := by
  intro a b h
  cases a <;> cases b <;> first | rfl | exact absurd h (by decide)

/-- C8: calling `Error` on any `statusCode` value twice in a row returns the
same string both times, that string is the value's message, and after the
calls the caller's value is the one it started with (same code, same
message). -/
theorem C8_Error_pure_and_repeatable (s : statusCode) :
    (callByValue statusCode.Error s).2 =
        (callByValue statusCode.Error (callByValue statusCode.Error s).1).2 ∧
      (callByValue statusCode.Error s).2 = s.msg ∧
      (callByValue statusCode.Error s).1 = s ∧
      (callByValue statusCode.Error (callByValue statusCode.Error s).1).1.code = s.code ∧
      (callByValue statusCode.Error (callByValue statusCode.Error s).1).1.msg = s.msg :=
  ⟨rfl, rfl, rfl, rfl, rfl⟩

/-! ## The dispatcher -/

/-- C2: for every integer `n` and every error value whose type assertion
against `StatusCoder` succeeds and whose `StatusCode` method returns `n`,
`Exit` terminates the process with status exactly `n`; no condition on the
range of `n` is needed. -/
theorem C2_Exit_passes_declared_code (n : Int) (err : error) (v : StatusCoder)
    (hv : err.assertStatusCoder = some v) (hn : v.StatusCode = .returned n) :
    Exit err = .exited n :=
  Exit_of_returned err v n hv hn

/-- C2 at the codes 999, 0 and -7 declared by foreign error values. -/
theorem C2_Exit_passes_declared_code_witness :
    Exit (.foreign "out of range" (some (.returned 999)) .nil) = .exited 999 ∧
      Exit (.foreign "zero" (some (.returned 0)) .nil) = .exited 0 ∧
      Exit (.foreign "negative" (some (.returned (-7))) .nil) = .exited (-7) :=
  ⟨C2_Exit_passes_declared_code 999 (.foreign "out of range" (some (.returned 999)) .nil)
      (.foreign (.returned 999)) rfl rfl,
   C2_Exit_passes_declared_code 0 (.foreign "zero" (some (.returned 0)) .nil)
      (.foreign (.returned 0)) rfl rfl,
   C2_Exit_passes_declared_code (-7) (.foreign "negative" (some (.returned (-7))) .nil)
      (.foreign (.returned (-7))) rfl rfl⟩

/-- C3: for every error value on which the type assertion against
`StatusCoder` fails, `Exit` terminates the process with status 1. -/
theorem C3_Exit_defaults_to_one (err : error) (h : err.assertStatusCoder = none) :
    Exit err = .exited 1 :=
  Exit_of_assert_none err h

/-- C3 at a plain error that declares no code. -/
theorem C3_Exit_defaults_to_one_witness :
    (error.foreign "plain failure" none .nil).assertStatusCoder = none ∧
      Exit (.foreign "plain failure" none .nil) = .exited 1 :=
  ⟨rfl, C3_Exit_defaults_to_one (.foreign "plain failure" none .nil) rfl⟩

/-- C4: passing any predefined category to `Exit` terminates the process with
the code tabulated for it (73 for `CantCreateError`); that status lies in
64..78, is not 0 and is not the fallback 1. -/
theorem C4_Exit_predefined (c : Category) :
    Exit c.value = .exited (specTable c).1 ∧
      64 ≤ (specTable c).1 ∧ (specTable c).1 ≤ 78 ∧
      Exit c.value ≠ .exited 0 ∧ Exit c.value ≠ .exited 1 ∧
      Exit CantCreateError = .exited 73 := by
  cases c <;> exact ⟨rfl, by decide, by decide, by decide, by decide, rfl⟩

/-- C7, as stated, fails: an error value whose dynamic type implements
`StatusCoder` and whose `StatusCode()` call panics (a value-receiver method
reached through a nil pointer, say) passes the type assertion, and `Exit`
panics while evaluating the argument of `os.Exit`: the process is not
terminated with any status by `Exit`. -/
theorem C7_counterexample_panicking_StatusCode :
    Exit (.foreign "typed nil" (some .panicked) .nil) = .panicked ∧
      (error.foreign "typed nil" (some .panicked) .nil).assertStatusCoder =
        some (.foreign .panicked) ∧
      ∀ status, Exit (.foreign "typed nil" (some .panicked) .nil) ≠ .exited status :=
  ⟨rfl, rfl, fun _ h => Outcome.noConfusion h⟩

/-- C7, amended: for every error value `Exit` never returns normally to its
caller; unless the value implements `StatusCoder` and its `StatusCode()` call
panics or runs forever, `Exit` ends in process termination with exactly one
status, without a panic and without running forever; and when the type
assertion against `StatusCoder` fails, nothing fails or panics and the status
is the default 1. -/
theorem C7_Exit_terminates_unless_StatusCode_fails (err : error) :
    (∀ u, Exit err ≠ .returned u) ∧
      (err.statusCodeCallFails = false →
        (∃ status, Exit err = .exited status ∧
          ∀ other, Exit err = .exited other → other = status) ∧
        Exit err ≠ .panicked ∧ Exit err ≠ .diverged) ∧
      (err.assertStatusCoder = none →
        err.statusCodeCallFails = false ∧ Exit err = .exited 1) := by
  refine ⟨Exit_ne_returned err, ?_, ?_⟩
  · intro h
    obtain ⟨status, hs⟩ := Exit_exited_of_call_ok err h
    refine ⟨⟨status, hs, ?_⟩, ?_, ?_⟩
    · intro other ho
      rw [hs] at ho
      exact (Outcome.exited.inj ho).symm
    · rw [hs]
      exact Outcome.noConfusion
    · rw [hs]
      exact Outcome.noConfusion
  · intro h
    exact ⟨by simp [error.statusCodeCallFails, h], Exit_of_assert_none err h⟩

/-- C7 amended, at a foreign error whose `StatusCode()` returns 999 and at a
plain error without the method. -/
theorem C7_Exit_terminates_unless_StatusCode_fails_witness :
    Exit (.foreign "out of range" (some (.returned 999)) .nil) ≠ .panicked ∧
      Exit (.foreign "plain failure" none .nil) = .exited 1 :=
  ⟨((C7_Exit_terminates_unless_StatusCode_fails
      (.foreign "out of range" (some (.returned 999)) .nil)).2.1 rfl).2.1,
   ((C7_Exit_terminates_unless_StatusCode_fails (.foreign "plain failure" none .nil)).2.2 rfl).2⟩

/-- C9: `Exit` called with a nil error terminates the process with status 1,
not with status 0, because the type assertion against `StatusCoder` fails on
nil. -/
theorem C9_Exit_nil :
    error.nil.assertStatusCoder = none ∧ Exit .nil = .exited 1 ∧ Exit .nil ≠ .exited 0 :=
  ⟨rfl, rfl, by decide⟩

/-- C10: a wrapper that does not itself implement `StatusCoder` makes `Exit`
terminate with status 1 whatever error it wraps, also when it wraps a
predefined category (a wrapper around `UsageError` gives 1 and not 64, while
`UsageError` itself gives 64); the status never depends on the wrapped
error. -/
theorem C10_Exit_never_unwraps (msg : String) (code : Option (Outcome Int))
    (inner other : error)
    (c : Category) :
    (error.foreign msg none inner).Unwrap = inner ∧
      Exit (.foreign msg none inner) = .exited 1 ∧
      Exit (.foreign msg none c.value) = .exited 1 ∧
      Exit (.foreign msg none c.value) ≠ Exit c.value ∧
      Exit (.foreign msg none UsageError) ≠ .exited 64 ∧
      Exit UsageError = .exited 64 ∧
      Exit (.foreign msg code inner) = Exit (.foreign msg code other) := by
  have hw : ∀ x, Exit (.foreign msg none x) = .exited 1 := fun _ => rfl
  refine ⟨rfl, rfl, rfl, ?_, ?_, rfl, ?_⟩
  · rw [hw]
    cases c <;> decide
  · rw [hw]
    decide
  · cases code <;> rfl

end sysexits
